import Mathlib

/-!
Shallow embedding of the conversation continuation and turn-taking core of
the persona-interface repository: the chat store, the transcript helpers of
the API layer, and the turn orchestrator of the extended chat interface.
Stateful handlers are modelled as functions from a state and collaborator
results to a list of primitive store actions; folding the actions over the
initial state yields the final state, and the action list also records every
generation-collaborator call that was issued.
-/

/-- Speaker role of a message, as in the store and API types. -/
inductive Role where
  | user
  | assistant
deriving DecidableEq

/-- ChatMessage from the API layer: role and content only. -/
structure ChatMessage where
  role : Role
  content : String
deriving DecidableEq

/-- Message of the extended chat store: optional terminating flag (absent
means unset, treated as terminating) and a generatedByModel marker
(absent in older store variants, which is modelled as false). -/
structure Message where
  role : Role
  content : String
  terminating : Option Bool := none
  generatedByModel : Bool := false
deriving DecidableEq

/-- Sparse steering-magnitude mapping, opaque to the core. -/
abbrev PCMap := List (String × Int)

/-- Generation request shape of the API layer. -/
structure GenRequest where
  messages : List ChatMessage
  pcValues : PCMap
  numTokens : Int
  isPartial : Bool
deriving DecidableEq

/-- Generation response shape of the API layer. -/
structure GenResponse where
  content : String
  terminating : Bool
deriving DecidableEq

/-- State of the extended chat store. -/
structure ChatState where
  messages : List Message
  isGenerating : Bool
  error : Option String
  numTokens : Int
  continuationIndex : Option Nat
  autoRun : Bool
deriving DecidableEq

/-- Projection from a store message to the API message shape. -/
def toChat (m : Message) : ChatMessage := ⟨m.role, m.content⟩

/-- swapRoles from the API layer: flip every role, keep content. -/
def swapRoles (messages : List ChatMessage) : List ChatMessage :=
  messages.map fun message =>
    ⟨if message.role = Role.user then Role.assistant else Role.user,
     message.content⟩

/-- ensureValidSequence from the API layer: an empty list becomes a single
empty user message, a list not starting with a user message gets an empty
user message prepended, anything else is returned unchanged. -/
def ensureValidSequence (messages : List ChatMessage) : List ChatMessage :=
  match messages with
  | [] => [⟨Role.user, ""⟩]
  | m :: rest =>
    if m.role ≠ Role.user then ⟨Role.user, ""⟩ :: m :: rest else m :: rest

/-- Transcript sent by generateUserMessage in the API layer: the swapped
log passed through ensureValidSequence. -/
def generateUserMessageTranscript (messages : List ChatMessage) : List ChatMessage :=
  ensureValidSequence (swapRoles messages)

/-- Direct generation request, as built by generateText. -/
def directRequest (msgs : List Message) (pc : PCMap) (n : Int) (isPartial : Bool) : GenRequest :=
  ⟨msgs.map toChat, pc, n, isPartial⟩

/-- Swapped-roles generation request with empty steering map, as built by
generateUserMessage. -/
def swappedRequest (msgs : List Message) (n : Int) (isPartial : Bool) : GenRequest :=
  ⟨generateUserMessageTranscript (msgs.map toChat), [], n, isPartial⟩

/-- handleChange of TokenControls: accepts the value when it is positive
and at most 500, otherwise leaves the stored token budget unchanged. -/
def handleChange (s : ChatState) (value : Int) : ChatState :=
  if value > 0 ∧ value ≤ 500 then { s with numTokens := value } else s

/-- removeLastMessage of the extended chat store: drops the final message
and resets the continuation index. -/
def removeLastMessage (s : ChatState) : ChatState :=
  { s with messages := s.messages.dropLast, continuationIndex := none }

/-- updateLastMessage of the extended chat store: returns the state
unchanged on an empty log, otherwise replaces the content of the final
message and, when the optional terminating argument is provided,
overwrites its terminating flag. -/
def updateLastMessage (s : ChatState) (content : String) (terminating : Option Bool) : ChatState :=
  match s.messages.getLast? with
  | none => s
  | some lastMessage =>
    { s with
      messages := s.messages.dropLast ++
        [{ lastMessage with
           content := content,
           terminating :=
             match terminating with
             | none => lastMessage.terminating
             | some b => some b }] }

/-- appendToAssistantMessage of the extended chat store variant embedded in
page.tsx: no-op when the index is out of bounds or the target is not an
assistant message, otherwise concatenates the content and overwrites the
terminating flag. -/
def appendToAssistantMessage (s : ChatState) (index : Nat) (content : String) (terminating : Bool) : ChatState :=
  match s.messages[index]? with
  | none => s
  | some target =>
    if target.role ≠ Role.assistant then s
    else
      { s with
        messages := s.messages.set index
          { target with
            content := target.content ++ content,
            terminating := some terminating } }

/-- Modelled from the spec: appendToMessage of the extended chat store (the
operation called appendToTurn in the spec), whose implementing store file is
not under src; only its caller in the extended chat interface is present.
Per the spec it concatenates the given text onto the turn at the index and
overwrites its terminating flag, and is a no-op when the index is out of
bounds or the turn is neither model-authored nor a synthetic human turn. -/
def appendToMessage (s : ChatState) (index : Nat) (content : String) (terminating : Bool) : ChatState :=
  match s.messages[index]? with
  | none => s
  | some target =>
    if target.role = Role.assistant ∨ (target.role = Role.user ∧ target.generatedByModel = true) then
      { s with
        messages := s.messages.set index
          { target with
            content := target.content ++ content,
            terminating := some terminating } }
    else s

/-- Message obtained by concatenating new content onto an existing message
and overwriting its terminating flag. -/
def appendedMessage (target : Message) (content : String) (terminating : Bool) : Message :=
  { target with content := target.content ++ content, terminating := some terminating }

/-- State of the simple chat store variant in store/chatStore.ts, which has
no terminating flags and no continuation index. -/
structure SimpleChatState where
  messages : List ChatMessage
  isGenerating : Bool
  error : Option String
  numTokens : Int
deriving DecidableEq

namespace SimpleStore

/-- removeLastMessage of the simple store: drops the final message. -/
def removeLastMessage (s : SimpleChatState) : SimpleChatState :=
  { s with messages := s.messages.dropLast }

/-- updateLastMessage of the simple store: returns the state unchanged on
an empty log, otherwise replaces the content of the final message. -/
def updateLastMessage (s : SimpleChatState) (content : String) : SimpleChatState :=
  match s.messages.getLast? with
  | none => s
  | some lastMessage =>
    { s with messages := s.messages.dropLast ++ [{ lastMessage with content := content }] }

end SimpleStore

/-- Primitive store actions issued by the orchestrator handlers.  The
callGen action records a generation-collaborator call and does not change
the store. -/
inductive StoreAction where
  | setGenerating (b : Bool)
  | storeError (e : Option String)
  | addMessage (m : Message)
  | appendMsg (index : Nat) (content : String) (terminating : Bool)
  | setContinuationIndex (i : Option Nat)
  | callGen (r : GenRequest)
deriving DecidableEq

/-- Effect of one primitive action on the store state. -/
def applyAction (s : ChatState) : StoreAction → ChatState
  | StoreAction.setGenerating b => { s with isGenerating := b }
  | StoreAction.storeError e => { s with error := e }
  | StoreAction.addMessage m => { s with messages := s.messages ++ [m] }
  | StoreAction.appendMsg i c t => appendToMessage s i c t
  | StoreAction.setContinuationIndex i => { s with continuationIndex := i }
  | StoreAction.callGen _ => s

/-- Fold a list of actions over a state. -/
def applyActions (s : ChatState) (acts : List StoreAction) : ChatState :=
  acts.foldl applyAction s

/-- The generation-collaborator calls recorded in an action list, in
order. -/
def callsOf (acts : List StoreAction) : List GenRequest :=
  acts.filterMap fun a =>
    match a with
    | StoreAction.callGen r => some r
    | _ => none

/-- The sequence of store states along an action list, starting with the
initial state; the entry at position k is the state after k actions. -/
def statesAlong (s : ChatState) : List StoreAction → List ChatState
  | [] => [s]
  | a :: rest => s :: statesAlong (applyAction s a) rest

/-- Error message thrown by generateAssistantMessage when the last turn is
not a user turn. -/
def noUserMsg : String := "Cannot generate assistant response without a user message"

/-- Error message thrown by handleContinue on an ineligible target. -/
def notEligibleMsg : String := "Message is not eligible for continuation"

/-- Assistant message built from a collaborator response. -/
def mkAssistant (resp : GenResponse) : Message :=
  ⟨Role.assistant, resp.content, some resp.terminating, false⟩

/-- Typed (non-synthetic) user message as appended by handleSend. -/
def mkUser (content : String) : Message :=
  ⟨Role.user, content, none, false⟩

/-- Synthetic user message built from a collaborator response, as appended
by handleGenerateUserMessage. -/
def mkGenUser (resp : GenResponse) : Message :=
  ⟨Role.user, resp.content, some resp.terminating, true⟩

/-- generateAssistantMessage of the extended chat interface: optionally
toggles the generating flag, requires the last message to be a user
message (throwing otherwise), calls the collaborator with the full log,
and appends the response as an assistant message.  Returns the issued
actions together with the outcome, the thrown error being the error case;
the finally block runs on every path. -/
def generateAssistantMessage (s : ChatState) (manage : Bool) (pc : PCMap)
    (r : Except String GenResponse) : List StoreAction × Except String GenResponse :=
  let opening : List StoreAction := if manage then [StoreAction.setGenerating true] else []
  let closing : List StoreAction := if manage then [StoreAction.setGenerating false] else []
  let s1 := applyActions s opening
  match s1.messages.getLast? with
  | none => (opening ++ closing, Except.error noUserMsg)
  | some lastMessage =>
    if lastMessage.role ≠ Role.user then
      (opening ++ closing, Except.error noUserMsg)
    else
      let req := directRequest s1.messages pc s1.numTokens false
      match r with
      | Except.error e => (opening ++ [StoreAction.callGen req] ++ closing, Except.error e)
      | Except.ok resp =>
        (opening ++ [StoreAction.callGen req, StoreAction.addMessage (mkAssistant resp)] ++ closing,
         Except.ok resp)

/-- handleSend of the extended chat interface: gated on the generating
flag; appends the typed user message, clears the error, sets generating,
runs generateAssistantMessage without letting it manage the flag, records
a thrown error, and finally resets generating. -/
def handleSend (s : ChatState) (content : String) (pc : PCMap)
    (r : Except String GenResponse) : List StoreAction :=
  if s.isGenerating then []
  else
    let pre : List StoreAction :=
      [StoreAction.addMessage (mkUser content), StoreAction.storeError none, StoreAction.setGenerating true]
    let s1 := applyActions s pre
    let gen := generateAssistantMessage s1 false pc r
    let caught : List StoreAction :=
      match gen.2 with
      | Except.error e => [StoreAction.storeError (some e)]
      | Except.ok _ => []
    pre ++ gen.1 ++ caught ++ [StoreAction.setGenerating false]

/-- handleSend of the simple chat interface variant: no generating gate;
appends the typed user message, clears the error, sets generating, calls
the collaborator on the closure log plus the new message, appends the
response as an assistant message, records a thrown error, and finally
resets generating. -/
def simpleHandleSend (s : ChatState) (content : String) (pc : PCMap)
    (r : Except String GenResponse) : List StoreAction :=
  let pre : List StoreAction :=
    [StoreAction.addMessage (mkUser content), StoreAction.storeError none, StoreAction.setGenerating true]
  let req := directRequest (s.messages ++ [mkUser content]) pc s.numTokens false
  match r with
  | Except.error e =>
    pre ++ [StoreAction.callGen req, StoreAction.storeError (some e), StoreAction.setGenerating false]
  | Except.ok resp =>
    pre ++ [StoreAction.callGen req,
            StoreAction.addMessage ⟨Role.assistant, resp.content, some resp.terminating, false⟩,
            StoreAction.setGenerating false]

/-- handleGenerateUserMessage of the extended chat interface: gated on the
generating flag; clears the error, sets generating, calls the collaborator
with the swapped-roles transcript, appends the response as a synthetic
user message, and when that response is terminating chains directly into
generateAssistantMessage without toggling generating; a thrown error is
recorded and generating is reset in the finally block. -/
def handleGenerateUserMessage (s : ChatState) (pc : PCMap)
    (r1 r2 : Except String GenResponse) : List StoreAction :=
  if s.isGenerating then []
  else
    let pre : List StoreAction := [StoreAction.storeError none, StoreAction.setGenerating true]
    let s1 := applyActions s pre
    let req := swappedRequest s1.messages s1.numTokens false
    match r1 with
    | Except.error e =>
      pre ++ [StoreAction.callGen req, StoreAction.storeError (some e), StoreAction.setGenerating false]
    | Except.ok resp =>
      let added : List StoreAction := [StoreAction.callGen req, StoreAction.addMessage (mkGenUser resp)]
      let s2 := applyActions s1 added
      if resp.terminating then
        let gen := generateAssistantMessage s2 false pc r2
        let caught : List StoreAction :=
          match gen.2 with
          | Except.error e => [StoreAction.storeError (some e)]
          | Except.ok _ => []
        pre ++ added ++ gen.1 ++ caught ++ [StoreAction.setGenerating false]
      else
        pre ++ added ++ [StoreAction.setGenerating false]

/-- handleContinue of the extended chat interface: gated on the generating
flag; clears the error, sets generating and the continuation index, and
throws unless the index is the last index and the target is an assistant
message or a model-generated user message with terminating exactly false.
On an eligible target it issues the direct or swapped partial request,
appends the response onto the target message, and when a synthetic user
turn became terminating chains into generateAssistantMessage; errors are
recorded and the finally block resets generating and the continuation
index. -/
def handleContinue (s : ChatState) (index : Nat) (pc : PCMap)
    (r1 r2 : Except String GenResponse) : List StoreAction :=
  if s.isGenerating then []
  else
    let pre : List StoreAction :=
      [StoreAction.storeError none, StoreAction.setGenerating true, StoreAction.setContinuationIndex (some index)]
    let s1 := applyActions s pre
    let msgs := s1.messages
    let lastIndex : Int := (msgs.length : Int) - 1
    let errActs : List StoreAction :=
      [StoreAction.storeError (some notEligibleMsg), StoreAction.setGenerating false,
       StoreAction.setContinuationIndex none]
    match msgs[index]? with
    | none => pre ++ errActs
    | some target =>
      if (index : Int) ≠ lastIndex ∨
         ¬(target.role = Role.assistant ∨ (target.role = Role.user ∧ target.generatedByModel = true)) ∨
         target.terminating ≠ some false then
        pre ++ errActs
      else
        let isAssistantMessage := target.role = Role.assistant
        let req :=
          if isAssistantMessage then directRequest msgs pc s1.numTokens true
          else swappedRequest msgs s1.numTokens true
        match r1 with
        | Except.error e =>
          pre ++ [StoreAction.callGen req, StoreAction.storeError (some e), StoreAction.setGenerating false,
                  StoreAction.setContinuationIndex none]
        | Except.ok resp =>
          let applied : List StoreAction :=
            [StoreAction.callGen req, StoreAction.appendMsg index resp.content resp.terminating]
          let s2 := applyActions s1 applied
          if ¬isAssistantMessage ∧ resp.terminating then
            let gen := generateAssistantMessage s2 false pc r2
            let caught : List StoreAction :=
              match gen.2 with
              | Except.error e => [StoreAction.storeError (some e)]
              | Except.ok _ => []
            pre ++ applied ++ gen.1 ++ caught ++
              [StoreAction.setGenerating false, StoreAction.setContinuationIndex none]
          else
            pre ++ applied ++ [StoreAction.setGenerating false, StoreAction.setContinuationIndex none]

/-- The standalone model-reply operation as observed at the orchestrator
boundary: generateAssistantMessage managing the generating flag, with a
thrown error recorded into the error field the way the catch block of
every error-handling caller of the operation records it. -/
def generateModelReplyOp (s : ChatState) (pc : PCMap)
    (r : Except String GenResponse) : List StoreAction :=
  let gen := generateAssistantMessage s true pc r
  gen.1 ++
    (match gen.2 with
     | Except.error e => [StoreAction.storeError (some e)]
     | Except.ok _ => [])

/-- The four possible decisions of the auto-run stepping loop. -/
inductive AutoStep where
  | genUserMessage
  | continueLast (index : Nat)
  | genAssistant
  | noAction
deriving DecidableEq

/-- Decision of the runAuto body of the extended chat interface, as a
function of the current log: empty log seeds a synthetic user turn; a
continuable last message (assistant or model-generated user, terminating
exactly false) is continued; a model-generated user message that is not
continuable gets an assistant reply; an assistant message that is not
continuable gets a synthetic user turn; otherwise nothing happens. -/
def runAutoStep (msgs : List Message) : AutoStep :=
  match msgs.getLast? with
  | none => AutoStep.genUserMessage
  | some lastMessage =>
    let lastIndex := msgs.length - 1
    if lastMessage.terminating = some false ∧
       (lastMessage.role = Role.assistant ∨
        (lastMessage.role = Role.user ∧ lastMessage.generatedByModel = true)) then
      AutoStep.continueLast lastIndex
    else if (lastMessage.role = Role.user ∧ lastMessage.generatedByModel = true) ∧
            lastMessage.terminating ≠ some false then
      AutoStep.genAssistant
    else if lastMessage.role = Role.assistant ∧ lastMessage.terminating ≠ some false then
      AutoStep.genUserMessage
    else
      AutoStep.noAction

/-- The auto-run effect of the extended chat interface: guarded on autoRun
being enabled, no generation in flight and no error, then the decision of
the loop body. -/
def runAuto (s : ChatState) : AutoStep :=
  if ¬s.autoRun ∨ s.isGenerating ∨ s.error ≠ none then AutoStep.noAction
  else runAutoStep s.messages

/-- Spec-side reading of the terminating flag: absence is treated as
terminating. -/
def specTerminating (m : Message) : Bool :=
  match m.terminating with
  | none => true
  | some b => b

/-- Spec-side state-machine table of the turn orchestrator, written from
the table in the spec: empty log seeds a synthetic human turn; a synthetic
human turn is continued when non-terminating and answered when
terminating; a typed human turn is answered when terminating; a model turn
is continued when non-terminating and followed by a synthetic human turn
when terminating; rows absent from the table mean no action. -/
def specStateMachineAction (msgs : List Message) : AutoStep :=
  match msgs.getLast? with
  | none => AutoStep.genUserMessage
  | some lastMessage =>
    let lastIndex := msgs.length - 1
    if lastMessage.role = Role.user ∧ lastMessage.generatedByModel = true ∧
       lastMessage.terminating = some false then
      AutoStep.continueLast lastIndex
    else if lastMessage.role = Role.user ∧ lastMessage.generatedByModel = true ∧
            specTerminating lastMessage = true then
      AutoStep.genAssistant
    else if lastMessage.role = Role.user ∧ lastMessage.generatedByModel = false ∧
            specTerminating lastMessage = true then
      AutoStep.genAssistant
    else if lastMessage.role = Role.assistant ∧ lastMessage.terminating = some false then
      AutoStep.continueLast lastIndex
    else if lastMessage.role = Role.assistant ∧ specTerminating lastMessage = true then
      AutoStep.genUserMessage
    else
      AutoStep.noAction

/-- Spec-side check that a transcript begins with a human-speaker entry. -/
def beginsWithUser (messages : List ChatMessage) : Bool :=
  match messages.head? with
  | some m => m.role = Role.user
  | none => false

/-- Folding actions over an appended list composes. -/
theorem applyActions_append (s : ChatState) (as bs : List StoreAction) :
    applyActions s (as ++ bs) = applyActions (applyActions s as) bs := by
  simp [applyActions, List.foldl_append]

/-- Recorded calls of an appended action list concatenate. -/
theorem callsOf_append (as bs : List StoreAction) :
    callsOf (as ++ bs) = callsOf as ++ callsOf bs := by
  simp [callsOf, List.filterMap_append]

/-- C9: the token-budget setter accepts exactly the values in the
inclusive range 1 to 500, storing the accepted value, and leaves the state
unchanged, raising no error, for every value outside the range. -/
theorem tokenBudget_setter_range (s : ChatState) (value : Int) :
    handleChange s value =
      if 1 ≤ value ∧ value ≤ 500 then { s with numTokens := value } else s := by
  unfold handleChange
  split_ifs with h1 h2 h3 <;> first | rfl | (exfalso; omega)

/-- C4: the transcript built for a synthetic-human generation request is
the role-swapped log with one empty user entry prepended exactly when the
swapped log is empty or does not begin with a user entry; the result
always begins with a user entry, and swapping flips every role while
keeping the content. -/
theorem syntheticTranscript_spec (messages : List ChatMessage) :
    generateUserMessageTranscript messages =
      (if beginsWithUser (swapRoles messages) = true then swapRoles messages
       else ⟨Role.user, ""⟩ :: swapRoles messages) ∧
    beginsWithUser (generateUserMessageTranscript messages) = true ∧
    ∀ i : Nat, (swapRoles messages)[i]? =
      (messages[i]?).map fun m =>
        ⟨if m.role = Role.user then Role.assistant else Role.user, m.content⟩ := by
  refine ⟨?_, ?_, ?_⟩
  · cases messages with
    | nil => simp [generateUserMessageTranscript, swapRoles, ensureValidSequence, beginsWithUser]
    | cons m rest =>
      cases hr : m.role <;>
        simp [generateUserMessageTranscript, swapRoles, ensureValidSequence, beginsWithUser, hr]
  · cases messages with
    | nil => simp [generateUserMessageTranscript, swapRoles, ensureValidSequence, beginsWithUser]
    | cons m rest =>
      cases hr : m.role <;>
        simp [generateUserMessageTranscript, swapRoles, ensureValidSequence, beginsWithUser, hr]
  · intro i
    simp [swapRoles, List.getElem?_map]

/-- C10 counterexample: on an empty log with a continuation index present,
removeLastMessage of the extended store resets the continuation index, so
the state is not unchanged on every empty-log state. -/
theorem removeLastMessage_empty_cex :
    removeLastMessage ⟨[], false, none, 50, some 3, false⟩ ≠
      ⟨[], false, none, 50, some 3, false⟩ := by
  decide

/-- C10 amended: at an empty log both store variants are total and touch
no message: updateLastMessage returns the state unchanged in both
variants, removeLastMessage of the simple store returns the state
unchanged, and removeLastMessage of the extended store changes nothing but
the continuation index, which it resets. -/
theorem lastMessage_mutators_empty (s : ChatState) (t : SimpleChatState)
    (content : String) (terminating : Option Bool)
    (hs : s.messages = []) (ht : t.messages = []) :
    updateLastMessage s content terminating = s ∧
    removeLastMessage s = { s with continuationIndex := none } ∧
    SimpleStore.updateLastMessage t content = t ∧
    SimpleStore.removeLastMessage t = t := by
  obtain ⟨ms, g, e, n, c, a⟩ := s
  obtain ⟨mt, gt, et, nt⟩ := t
  simp only at hs ht
  subst hs
  subst ht
  refine ⟨?_, ?_, ?_, ?_⟩ <;>
    simp [updateLastMessage, removeLastMessage,
      SimpleStore.updateLastMessage, SimpleStore.removeLastMessage]

/-- C10 witness: the amended statement at a concrete empty-log state. -/
theorem lastMessage_mutators_empty_witness :
    updateLastMessage ⟨[], false, none, 50, none, false⟩ ("x") (some true) =
      ⟨[], false, none, 50, none, false⟩ ∧
    removeLastMessage ⟨[], false, none, 50, none, false⟩ =
      ⟨[], false, none, 50, none, false⟩ ∧
    SimpleStore.updateLastMessage ⟨[], false, none, 50⟩ ("x") = ⟨[], false, none, 50⟩ ∧
    SimpleStore.removeLastMessage ⟨[], false, none, 50⟩ = ⟨[], false, none, 50⟩ := by
  have h := lastMessage_mutators_empty ⟨[], false, none, 50, none, false⟩
    ⟨[], false, none, 50⟩ ("x") (some true) rfl rfl
  exact ⟨h.1, h.2.1, h.2.2.1, h.2.2.2⟩

/-- C5: appendToMessage with an in-bounds index whose target is a model
message or a synthetic user message concatenates the text after the old
content and overwrites the terminating flag, leaving everything else
unchanged; on an out-of-bounds index, or an in-bounds target that is
neither, the state is returned unchanged. -/
theorem appendToTurn_spec (s : ChatState) (index : Nat) (content : String) (terminating : Bool) :
    (∀ target, s.messages[index]? = some target →
      (target.role = Role.assistant ∨ (target.role = Role.user ∧ target.generatedByModel = true)) →
      appendToMessage s index content terminating =
        { s with messages := s.messages.set index (appendedMessage target content terminating) }) ∧
    (s.messages.length ≤ index → appendToMessage s index content terminating = s) ∧
    (∀ target, s.messages[index]? = some target →
      ¬(target.role = Role.assistant ∨ (target.role = Role.user ∧ target.generatedByModel = true)) →
      appendToMessage s index content terminating = s) := by
  refine ⟨?_, ?_, ?_⟩
  · intro target hm helig
    simp [appendToMessage, hm, helig, appendedMessage]
  · intro hlen
    have hm : s.messages[index]? = none := by
      simp [List.getElem?_eq_none hlen]
    simp [appendToMessage, hm]
  · intro target hm helig
    simp [appendToMessage, hm, helig]

/-- C5 witness: the concatenation example at concrete inputs, both for an
eligible model turn and for an ineligible typed user turn. -/
theorem appendToTurn_spec_witness :
    appendToMessage ⟨[⟨Role.assistant, "Hi", some false, false⟩], false, none, 50, none, false⟩
        0 (" there") true =
      ⟨[⟨Role.assistant, "Hi there", some true, false⟩], false, none, 50, none, false⟩ ∧
    appendToMessage ⟨[⟨Role.user, "Hi", some false, false⟩], false, none, 50, none, false⟩
        0 (" there") true =
      ⟨[⟨Role.user, "Hi", some false, false⟩], false, none, 50, none, false⟩ := by
  constructor
  · have h := (appendToTurn_spec
      ⟨[⟨Role.assistant, "Hi", some false, false⟩], false, none, 50, none, false⟩
      0 (" there") true).1 ⟨Role.assistant, "Hi", some false, false⟩ (by decide) (Or.inl rfl)
    rw [h]
    decide
  · have h := (appendToTurn_spec
      ⟨[⟨Role.user, "Hi", some false, false⟩], false, none, 50, none, false⟩
      0 (" there") true).2.2 ⟨Role.user, "Hi", some false, false⟩ (by decide) (by decide)
    exact h

/-- C3 counterexample: the simple variant of handleSend has no generating
gate, so invoking it while a generation is already in flight appends the
typed message and issues a collaborator call instead of being a no-op. -/
theorem sendHumanTurn_simple_not_noop_cex :
    (applyActions ⟨[], true, none, 50, none, false⟩
        (simpleHandleSend ⟨[], true, none, 50, none, false⟩ ("hey") []
          (Except.ok ⟨"ok", true⟩))).messages ≠ ([] : List Message) ∧
    callsOf (simpleHandleSend ⟨[], true, none, 50, none, false⟩ ("hey") []
        (Except.ok ⟨"ok", true⟩)) ≠ [] := by
  decide

/-- C3 amended: in the extended chat interface, handleSend invoked while a
generation is already in flight is a complete no-op: it issues no actions,
leaves the state identical and makes no collaborator call; the simple
variant lacks this gate. -/
theorem sendHumanTurn_generating_noop (s : ChatState) (content : String) (pc : PCMap)
    (r : Except String GenResponse) (h : s.isGenerating = true) :
    handleSend s content pc r = [] ∧
    applyActions s (handleSend s content pc r) = s ∧
    callsOf (handleSend s content pc r) = [] := by
  refine ⟨?_, ?_, ?_⟩ <;> simp [handleSend, h, applyActions, callsOf]

/-- C3 witness: the amended no-op statement at a concrete in-flight
state. -/
theorem sendHumanTurn_generating_noop_witness :
    handleSend ⟨[], true, none, 50, none, false⟩ ("hey") [] (Except.ok ⟨"ok", true⟩) = [] ∧
    applyActions ⟨[], true, none, 50, none, false⟩
        (handleSend ⟨[], true, none, 50, none, false⟩ ("hey") [] (Except.ok ⟨"ok", true⟩)) =
      ⟨[], true, none, 50, none, false⟩ ∧
    callsOf (handleSend ⟨[], true, none, 50, none, false⟩ ("hey") []
        (Except.ok ⟨"ok", true⟩)) = [] :=
  sendHumanTurn_generating_noop ⟨[], true, none, 50, none, false⟩ ("hey") []
    (Except.ok ⟨"ok", true⟩) rfl

/-- Ineligible continuation with no generation in flight reduces to the
precondition-failure action sequence. -/
theorem handleContinue_ineligible_eq (s : ChatState) (index : Nat) (pc : PCMap)
    (r1 r2 : Except String GenResponse) (hg : s.isGenerating = false)
    (hin : (index : Int) ≠ (s.messages.length : Int) - 1 ∨
           (∀ target, s.messages[index]? = some target →
             ¬(target.role = Role.assistant ∨
               (target.role = Role.user ∧ target.generatedByModel = true))) ∨
           (∀ target, s.messages[index]? = some target → target.terminating ≠ some false)) :
    handleContinue s index pc r1 r2 =
      [StoreAction.storeError none, StoreAction.setGenerating true,
       StoreAction.setContinuationIndex (some index),
       StoreAction.storeError (some notEligibleMsg), StoreAction.setGenerating false,
       StoreAction.setContinuationIndex none] := by
  simp only [handleContinue, hg, Bool.false_eq_true, if_false, applyActions, List.foldl,
    applyAction]
  cases hm : s.messages[index]? with
  | none => simp
  | some target =>
    have hcond : (index : Int) ≠ (s.messages.length : Int) - 1 ∨
        ¬(target.role = Role.assistant ∨
          (target.role = Role.user ∧ target.generatedByModel = true)) ∨
        target.terminating ≠ some false := by
      rcases hin with h | h | h
      · exact Or.inl h
      · exact Or.inr (Or.inl (h target hm))
      · exact Or.inr (Or.inr (h target hm))
    simp [hcond]
    intro h1 h2 h3
    exfalso
    rcases hcond with h | h | h
    · exact h h1
    · by_cases ha : target.role = Role.assistant
      · exact h (Or.inl ha)
      · exact h (Or.inr (h2 ha))
    · exact h h3

/-- C1 amended: for every state with no generation in flight, calling
handleContinue on an index that is not the last index, or whose target is
not a model or synthetic user turn, or whose target does not have
terminating exactly false, makes no collaborator call, leaves the log
unchanged, and ends with the not-eligible error recorded, generating false
and the continuation index unset.  The original claim fails when a
generation is already in flight, where the call returns before recording
any error. -/
theorem continueTurn_ineligible (s : ChatState) (index : Nat) (pc : PCMap)
    (r1 r2 : Except String GenResponse) (hg : s.isGenerating = false)
    (hin : (index : Int) ≠ (s.messages.length : Int) - 1 ∨
           (∀ target, s.messages[index]? = some target →
             ¬(target.role = Role.assistant ∨
               (target.role = Role.user ∧ target.generatedByModel = true))) ∨
           (∀ target, s.messages[index]? = some target → target.terminating ≠ some false)) :
    callsOf (handleContinue s index pc r1 r2) = [] ∧
    (applyActions s (handleContinue s index pc r1 r2)).messages = s.messages ∧
    (applyActions s (handleContinue s index pc r1 r2)).error = some notEligibleMsg ∧
    (applyActions s (handleContinue s index pc r1 r2)).isGenerating = false ∧
    (applyActions s (handleContinue s index pc r1 r2)).continuationIndex = none := by
  rw [handleContinue_ineligible_eq s index pc r1 r2 hg hin]
  refine ⟨?_, ?_, ?_, ?_, ?_⟩ <;>
    simp [callsOf, applyActions, List.foldl, applyAction]

/-- C1 counterexample: with a generation already in flight, handleContinue
at an ineligible index returns before recording any error, so the state
keeps a clear error field and a true generating flag, contradicting the
unconditional claim. -/
theorem continueTurn_gate_cex :
    ¬((applyActions ⟨[], true, none, 50, none, false⟩
          (handleContinue ⟨[], true, none, 50, none, false⟩ 0 []
            (Except.ok ⟨"", true⟩) (Except.ok ⟨"", true⟩))).error = some notEligibleMsg ∧
      (applyActions ⟨[], true, none, 50, none, false⟩
          (handleContinue ⟨[], true, none, 50, none, false⟩ 0 []
            (Except.ok ⟨"", true⟩) (Except.ok ⟨"", true⟩))).isGenerating = false) := by
  decide

/-- C1 witness: the amended statement applied at an empty log and index
zero with no generation in flight. -/
theorem continueTurn_ineligible_witness :
    callsOf (handleContinue ⟨[], false, none, 50, none, false⟩ 0 []
        (Except.ok ⟨"", true⟩) (Except.ok ⟨"", true⟩)) = [] ∧
    (applyActions ⟨[], false, none, 50, none, false⟩
        (handleContinue ⟨[], false, none, 50, none, false⟩ 0 []
          (Except.ok ⟨"", true⟩) (Except.ok ⟨"", true⟩))).messages = [] ∧
    (applyActions ⟨[], false, none, 50, none, false⟩
        (handleContinue ⟨[], false, none, 50, none, false⟩ 0 []
          (Except.ok ⟨"", true⟩) (Except.ok ⟨"", true⟩))).error = some notEligibleMsg ∧
    (applyActions ⟨[], false, none, 50, none, false⟩
        (handleContinue ⟨[], false, none, 50, none, false⟩ 0 []
          (Except.ok ⟨"", true⟩) (Except.ok ⟨"", true⟩))).isGenerating = false ∧
    (applyActions ⟨[], false, none, 50, none, false⟩
        (handleContinue ⟨[], false, none, 50, none, false⟩ 0 []
          (Except.ok ⟨"", true⟩) (Except.ok ⟨"", true⟩))).continuationIndex = none :=
  continueTurn_ineligible ⟨[], false, none, 50, none, false⟩ 0 []
    (Except.ok ⟨"", true⟩) (Except.ok ⟨"", true⟩) rfl (Or.inl (by decide))

/-- C2 counterexample: with auto-run enabled, no generation in flight and
no error, a log ending in a typed (non-synthetic) terminating user turn
makes the loop perform no action, while the state-machine table of the
spec prescribes generating a model reply. -/
theorem autoRun_typedHuman_cex :
    runAuto ⟨[⟨Role.user, "hi", some true, false⟩], false, none, 50, none, true⟩ =
      AutoStep.noAction ∧
    specStateMachineAction [⟨Role.user, "hi", some true, false⟩] = AutoStep.genAssistant ∧
    AutoStep.noAction ≠ AutoStep.genAssistant := by
  decide

/-- C2 amended: whenever the auto-run loop triggers with autoRun true,
generating false and no error set, it performs exactly the action of the
state-machine table of the spec, except that for a typed (non-synthetic)
user last turn it performs no action instead of generating a model
reply. -/
theorem autoRun_matches_table (s : ChatState)
    (ha : s.autoRun = true) (hg : s.isGenerating = false) (he : s.error = none) :
    runAuto s =
      (match s.messages.getLast? with
       | some m =>
         if m.role = Role.user ∧ m.generatedByModel = false then AutoStep.noAction
         else specStateMachineAction s.messages
       | none => specStateMachineAction s.messages) := by
  have hguard : runAuto s = runAutoStep s.messages := by
    simp [runAuto, ha, hg, he]
  rw [hguard]
  cases hm : s.messages.getLast? with
  | none => simp [runAutoStep, specStateMachineAction, hm]
  | some m =>
    obtain ⟨role, content, term, gen⟩ := m
    cases role <;> cases gen <;> rcases term with _ | (_ | _) <;>
      simp [runAutoStep, specStateMachineAction, specTerminating, hm]

/-- C2 witness: the amended statement applied at a state whose last turn
is a non-terminating model turn, where the loop continues that turn. -/
theorem autoRun_matches_table_witness :
    runAuto ⟨[⟨Role.assistant, "Why did", some false, false⟩], false, none, 50, none, true⟩ =
      AutoStep.continueLast 0 ∧
    specStateMachineAction [⟨Role.assistant, "Why did", some false, false⟩] =
      AutoStep.continueLast 0 := by
  have h := autoRun_matches_table
    ⟨[⟨Role.assistant, "Why did", some false, false⟩], false, none, 50, none, true⟩
    rfl rfl rfl
  constructor
  · rw [h]
    decide
  · decide

/-- Final generating flag after an action list ending in a setGenerating
action. -/
theorem isGenerating_append_setGen (s : ChatState) (as : List StoreAction) (b : Bool) :
    (applyActions s (as ++ [StoreAction.setGenerating b])).isGenerating = b := by
  rw [applyActions_append]
  simp [applyActions, applyAction]

/-- Final generating flag after an action list ending in a setGenerating
action followed by a continuation-index reset. -/
theorem isGenerating_append_setGen_setCont (s : ChatState) (as : List StoreAction)
    (b : Bool) (i : Option Nat) :
    (applyActions s
        (as ++ [StoreAction.setGenerating b, StoreAction.setContinuationIndex i])).isGenerating = b := by
  rw [applyActions_append]
  simp [applyActions, applyAction]

/-- C8: every orchestrator operation that actually starts (the generating
gate passes) ends with the generating flag false, on normal completion, on
precondition failure and when the collaborator fails, for all collaborator
outcomes. -/
theorem generating_reset_on_exit (s : ChatState) (content : String) (index : Nat)
    (pc : PCMap) (r1 r2 : Except String GenResponse) (hg : s.isGenerating = false) :
    (applyActions s (handleSend s content pc r1)).isGenerating = false ∧
    (applyActions s (handleGenerateUserMessage s pc r1 r2)).isGenerating = false ∧
    (applyActions s (handleContinue s index pc r1 r2)).isGenerating = false ∧
    (applyActions s (generateModelReplyOp s pc r1)).isGenerating = false := by
  refine ⟨?_, ?_, ?_, ?_⟩
  · simp only [handleSend, hg, Bool.false_eq_true, if_false]
    exact isGenerating_append_setGen s _ false
  · simp only [handleGenerateUserMessage, hg, Bool.false_eq_true, if_false]
    rcases r1 with e1 | resp1
    · rw [applyActions_append]
      simp [applyActions, applyAction]
    · cases hrt : resp1.terminating
      · simp only [hrt, Bool.false_eq_true, if_false]
        rw [List.append_assoc, applyActions_append]
        simp [applyActions, applyAction]
      · simp only [hrt, if_true]
        exact isGenerating_append_setGen s _ false
  · simp only [handleContinue, hg, Bool.false_eq_true, if_false]
    cases hm : (applyActions s [StoreAction.storeError none, StoreAction.setGenerating true,
        StoreAction.setContinuationIndex (some index)]).messages[index]? with
    | none =>
      simp [hm, applyActions_append, applyActions, applyAction]
    | some target =>
      simp only [hm]
      split
      · simp [applyActions_append, applyActions, applyAction]
      · rcases r1 with e1 | resp1
        · simp [applyActions_append, applyActions, applyAction]
        · dsimp only
          split <;> simp [applyActions_append, applyActions, applyAction]
  · have hred : (applyActions s [StoreAction.setGenerating true]).messages = s.messages := rfl
    simp only [generateModelReplyOp, generateAssistantMessage, hred]
    cases hm : s.messages.getLast? with
    | none =>
      simp [hm, applyActions_append, applyActions, applyAction]
    | some lastMessage =>
      try simp only [hm]
      split
      · simp [applyActions_append, applyActions, applyAction]
      · rcases r1 with e1 | resp1 <;>
          · split <;> simp [applyActions_append, applyActions, applyAction]

/-- C8 witness: the reset statement applied at a concrete idle state with
a failing collaborator. -/
theorem generating_reset_on_exit_witness :
    (applyActions ⟨[], false, none, 50, none, false⟩
        (handleSend ⟨[], false, none, 50, none, false⟩ ("hi") []
          (Except.error ("boom")))).isGenerating = false ∧
    (applyActions ⟨[], false, none, 50, none, false⟩
        (handleGenerateUserMessage ⟨[], false, none, 50, none, false⟩ []
          (Except.error ("boom")) (Except.ok ⟨"y", true⟩))).isGenerating = false ∧
    (applyActions ⟨[], false, none, 50, none, false⟩
        (handleContinue ⟨[], false, none, 50, none, false⟩ 0 []
          (Except.error ("boom")) (Except.ok ⟨"y", true⟩))).isGenerating = false ∧
    (applyActions ⟨[], false, none, 50, none, false⟩
        (generateModelReplyOp ⟨[], false, none, 50, none, false⟩ []
          (Except.error ("boom")))).isGenerating = false :=
  generating_reset_on_exit ⟨[], false, none, 50, none, false⟩ ("hi") 0 []
    (Except.error ("boom")) (Except.ok ⟨"y", true⟩) rfl

/-- C7: the standalone model-reply operation: on an empty log or a log
whose last turn is not user-authored it makes no collaborator call,
appends nothing and records the no-user error; when the last turn is
user-authored it calls the collaborator with the full log, and on success
appends the response as an assistant message carrying the returned
terminating flag. -/
theorem generateModelReply_spec (s : ChatState) (pc : PCMap) (r : Except String GenResponse) :
    ((∀ m, s.messages.getLast? = some m → m.role ≠ Role.user) →
      callsOf (generateModelReplyOp s pc r) = [] ∧
      (applyActions s (generateModelReplyOp s pc r)).messages = s.messages ∧
      (applyActions s (generateModelReplyOp s pc r)).error = some noUserMsg) ∧
    (∀ m, s.messages.getLast? = some m → m.role = Role.user →
      callsOf (generateModelReplyOp s pc r) = [directRequest s.messages pc s.numTokens false] ∧
      ∀ resp, r = Except.ok resp →
        (applyActions s (generateModelReplyOp s pc r)).messages =
          s.messages ++ [mkAssistant resp]) := by
  constructor
  · intro h
    rcases hm : s.messages.getLast? with _ | m
    · refine ⟨?_, ?_, ?_⟩ <;>
        simp [generateModelReplyOp, generateAssistantMessage, hm, callsOf,
          applyActions, applyAction]
    · have hrole := h m hm
      refine ⟨?_, ?_, ?_⟩ <;>
        simp [generateModelReplyOp, generateAssistantMessage, hm, hrole, callsOf,
          applyActions, applyAction]
  · intro m hm hrole
    constructor
    · rcases r with e | resp <;>
        simp [generateModelReplyOp, generateAssistantMessage, hm, hrole, callsOf,
          applyActions, applyAction]
    · intro resp hr
      subst hr
      simp [generateModelReplyOp, generateAssistantMessage, hm, hrole,
        applyActions, applyAction]

/-- C7 witness: the failure half at an empty log and the success half at a
log ending in a typed user turn. -/
theorem generateModelReply_spec_witness :
    (callsOf (generateModelReplyOp ⟨[], false, none, 50, none, false⟩ []
        (Except.ok ⟨"ok", true⟩)) = [] ∧
      (applyActions ⟨[], false, none, 50, none, false⟩
          (generateModelReplyOp ⟨[], false, none, 50, none, false⟩ []
            (Except.ok ⟨"ok", true⟩))).error = some noUserMsg) ∧
    (applyActions ⟨[⟨Role.user, "hi", some true, false⟩], false, none, 50, none, false⟩
        (generateModelReplyOp ⟨[⟨Role.user, "hi", some true, false⟩], false, none, 50, none, false⟩
          [] (Except.ok ⟨"ok", true⟩))).messages =
      [⟨Role.user, "hi", some true, false⟩] ++ [mkAssistant ⟨"ok", true⟩] := by
  have h1 := (generateModelReply_spec ⟨[], false, none, 50, none, false⟩ []
    (Except.ok ⟨"ok", true⟩)).1 (by intro m hm; simp at hm)
  have h2 := ((generateModelReply_spec
    ⟨[⟨Role.user, "hi", some true, false⟩], false, none, 50, none, false⟩ []
    (Except.ok ⟨"ok", true⟩)).2 ⟨Role.user, "hi", some true, false⟩ rfl rfl).2
    ⟨"ok", true⟩ rfl
  exact ⟨⟨h1.1, h1.2.2⟩, h2⟩

/-- C6: when the synthetic-human operation starts and its collaborator
call succeeds with a terminating response, a model-reply call on the log
extended with the synthetic turn is issued within the same operation, and
every intermediate state from the moment the generating flag is set, over
the append of the synthetic turn, until the last state before the final
cleanup, has the generating flag true. -/
theorem syntheticTurn_chains_reply (s : ChatState) (pc : PCMap) (resp : GenResponse)
    (r2 : Except String GenResponse) (hg : s.isGenerating = false)
    (ht : resp.terminating = true) :
    (callsOf (handleGenerateUserMessage s pc (Except.ok resp) r2)).length = 2 ∧
    (callsOf (handleGenerateUserMessage s pc (Except.ok resp) r2))[1]? =
      some (directRequest (s.messages ++ [mkGenUser resp]) pc s.numTokens false) ∧
    ∀ k st, 2 ≤ k → k ≤ 6 →
      (statesAlong s (handleGenerateUserMessage s pc (Except.ok resp) r2))[k]? = some st →
      st.isGenerating = true := by
  obtain ⟨c, t⟩ := resp
  simp only at ht
  subst ht
  rcases r2 with e2 | resp2
  · refine ⟨?_, ?_, ?_⟩
    · simp [handleGenerateUserMessage, generateAssistantMessage, hg, callsOf,
        applyActions, applyAction, mkGenUser, List.getLast?_concat]
    · simp [handleGenerateUserMessage, generateAssistantMessage, hg, callsOf,
        applyActions, applyAction, mkGenUser, directRequest, List.getLast?_concat]
    · intro k st hk1 hk2 hst
      interval_cases k <;>
        simp_all [handleGenerateUserMessage, generateAssistantMessage, hg,
          statesAlong, applyActions, applyAction, mkGenUser, List.getLast?_concat] <;>
        (subst hst; rfl)
  · refine ⟨?_, ?_, ?_⟩
    · simp [handleGenerateUserMessage, generateAssistantMessage, hg, callsOf,
        applyActions, applyAction, mkGenUser, List.getLast?_concat]
    · simp [handleGenerateUserMessage, generateAssistantMessage, hg, callsOf,
        applyActions, applyAction, mkGenUser, directRequest, List.getLast?_concat]
    · intro k st hk1 hk2 hst
      interval_cases k <;>
        simp_all [handleGenerateUserMessage, generateAssistantMessage, hg,
          statesAlong, applyActions, applyAction, mkGenUser, List.getLast?_concat] <;>
        (subst hst; rfl)

/-- C6 witness: the chaining statement at a concrete empty-log state, with
the intermediate-state clause instantiated at the state right after the
synthetic turn is appended. -/
theorem syntheticTurn_chains_reply_witness :
    (callsOf (handleGenerateUserMessage ⟨[], false, none, 50, none, false⟩ []
        (Except.ok ⟨"q", true⟩) (Except.ok ⟨"a", true⟩))).length = 2 ∧
    (callsOf (handleGenerateUserMessage ⟨[], false, none, 50, none, false⟩ []
        (Except.ok ⟨"q", true⟩) (Except.ok ⟨"a", true⟩)))[1]? =
      some (directRequest [mkGenUser ⟨"q", true⟩] [] 50 false) ∧
    (⟨[mkGenUser ⟨"q", true⟩], true, none, 50, none, false⟩ : ChatState).isGenerating = true := by
  have h := syntheticTurn_chains_reply ⟨[], false, none, 50, none, false⟩ [] ⟨"q", true⟩
    (Except.ok ⟨"a", true⟩) rfl rfl
  refine ⟨h.1, ?_, ?_⟩
  · simpa using h.2.1
  · exact h.2.2 4 ⟨[mkGenUser ⟨"q", true⟩], true, none, 50, none, false⟩
      (by norm_num) (by norm_num) (by decide)
